import Mathlib

/-!
Verification development for the BlueGauge watcher / reconciliation subsystem.

The definitions below are shallow embeddings of the Rust source:
- `src/src/bluetooth/ble.rs` (BLE watcher, battery debounce filter),
- `src/src/bluetooth/btc.rs` (Classic status watcher),
- `src/src/bluetooth/watch.rs` (presence watcher, event handlers),
- `src/src/notify.rs` (low-battery notification with hysteresis).

Time (`Instant`) is modelled as a natural number; `t.elapsed()` evaluated at
time `now` becomes `now - t` (truncated subtraction, which agrees with the
monotonic clock because timestamps never lie in the future).
The concurrent registry (`DashMap` / `Mutex<HashMap>`) is modelled as an
association list keyed by the 64-bit device address, with the mutation
primitives the source uses: lookup (`get`), in-place update (`get_mut`),
insertion (vacant-entry insert) and removal.
-/

namespace BlueGauge

/-- Association-list lookup, modelling `HashMap::get` / `DashMap::get`. -/
def getEntry {α : Type} : List (Nat × α) → Nat → Option α
  | [], _ => none
  | (k, v) :: rest, a => if k = a then some v else getEntry rest a

/-- In-place update of the value stored under a key, modelling `get_mut`
followed by a field assignment.  Keys are never added or dropped. -/
def mapEntry {α : Type} : List (Nat × α) → Nat → (α → α) → List (Nat × α)
  | [], _, _ => []
  | (k, v) :: rest, a, f =>
      if k = a then (k, f v) :: mapEntry rest a f
      else (k, v) :: mapEntry rest a f

/-- Removal of a key, modelling `HashMap::remove` / `DashMap::remove`. -/
def removeEntry {α : Type} : List (Nat × α) → Nat → List (Nat × α)
  | [], _ => []
  | (k, v) :: rest, a =>
      if k = a then removeEntry rest a else (k, v) :: removeEntry rest a

theorem getEntry_mapEntry {α : Type} (m : List (Nat × α)) (a x : Nat) (f : α → α) :
    getEntry (mapEntry m a f) x =
      if x = a then (getEntry m x).map f else getEntry m x := by
  induction m with
  | nil => simp [getEntry, mapEntry]
  | cons kv rest ih =>
    obtain ⟨k, v⟩ := kv
    by_cases hk : k = a
    · subst hk
      by_cases hx : x = k
      · subst hx
        simp [getEntry, mapEntry]
      · have hk2 : ¬ k = x := fun h => hx h.symm
        simp [getEntry, mapEntry, hk2, hx, ih]
    · by_cases hx : x = k
      · subst hx
        have hx2 : ¬ x = a := hk
        simp [getEntry, mapEntry, hk, hx2]
      · have hk2 : ¬ k = x := fun h => hx h.symm
        simp [getEntry, mapEntry, hk, hk2, ih]

theorem getEntry_removeEntry {α : Type} (m : List (Nat × α)) (a x : Nat) :
    getEntry (removeEntry m a) x =
      if x = a then none else getEntry m x := by
  induction m with
  | nil => simp [getEntry, removeEntry]
  | cons kv rest ih =>
    obtain ⟨k, v⟩ := kv
    by_cases hk : k = a
    · subst hk
      by_cases hx : x = k
      · subst hx
        simp [getEntry, removeEntry, ih]
      · have hk2 : ¬ k = x := fun h => hx h.symm
        simp [getEntry, removeEntry, hk2, hx, ih]
    · by_cases hx : x = k
      · subst hx
        have hx2 : ¬ x = a := hk
        simp [getEntry, removeEntry, hk, hx2]
      · have hk2 : ¬ k = x := fun h => hx h.symm
        simp [getEntry, removeEntry, hk, hk2, ih]

/-- Type `BluetoothType` from `src/src/bluetooth/info.rs`. -/
inductive BluetoothType : Type
  | Classic (instance_id : String)
  | LowEnergy
deriving DecidableEq, Repr

/-- Record `BluetoothInfo` from `src/src/bluetooth/info.rs` (the registry entry);
`battery : u8` and `address : u64` become naturals. -/
structure BluetoothInfo : Type where
  name : String
  battery : Nat
  status : Bool
  address : Nat
  type : BluetoothType
deriving DecidableEq, Repr

/-- Record `BatteryState` from `src/src/bluetooth/ble.rs` (per-address debounce
state): last committed value, its commit time, and an optional pending
`(value, firstSeenAt)` pair. -/
structure BatteryState : Type where
  last_update : Nat
  last_value : Nat
  pending_state : Option (Nat × Nat)
deriving DecidableEq, Repr

/-- Constant `BATTERY_STABILITY_DURATION` (15 s) from `ble.rs`. -/
def BATTERY_STABILITY_DURATION : Nat := 15

/-- Constant `MINIMUM_UPDATE_INTERVAL` (20 s) from `ble.rs`. -/
def MINIMUM_UPDATE_INTERVAL : Nat := 20

/-- Outcome of one debounce evaluation: commit a value to the registry, or
hold it back. -/
inductive Decision : Type
  | Commit (v : Nat)
  | Hold
deriving DecidableEq, Repr

/-- Stability check of the debounce filter (the first `if`/`match` block of
the `Occupied` arm in `watch_ble_devices_async`, `ble.rs` lines 311-334):
returns the mutated state and whether the stability window elapsed for a
matching pending value. -/
def logicA (state : BatteryState) (new_battery now : Nat) : BatteryState × Bool :=
  if state.last_value = new_battery then
    ({ state with pending_state := none }, false)
  else
    match state.pending_state with
    | some (pending_value, first_seen_time) =>
        if pending_value = new_battery then
          (state, decide (BATTERY_STABILITY_DURATION ≤ now - first_seen_time))
        else
          ({ state with pending_state := some (new_battery, now) }, false)
    | none => ({ state with pending_state := some (new_battery, now) }, false)

/-- The full debounce evaluation of the `Occupied` arm in
`watch_ble_devices_async` (`ble.rs` lines 306-361): the stability check
(`logicA`), then the forced periodic fallback (lines 336-343), then the
commit block (lines 345-361) which updates `last_value`/`last_update` and
clears the pending state. -/
def processBattery (state0 : BatteryState) (new_battery now : Nat) :
    Decision × BatteryState :=
  let p := logicA state0 new_battery now
  let state := p.1
  let forceB : Bool := !p.2 &&
      decide (MINIMUM_UPDATE_INTERVAL ≤ now - state.last_update) &&
      decide (state.last_value ≠ new_battery)
  let should_report := p.2 || forceB
  let value_to_report :=
    if forceB then
      match state.pending_state with
      | some q => q.1
      | none => new_battery
    else new_battery
  if should_report then
    (Decision.Commit value_to_report,
      { state with
          last_value := value_to_report
          last_update := now
          pending_state := none })
  else (Decision.Hold, state)

/-- Decisions produced by feeding a timed reading sequence through the
debounce filter, threading the per-address state. -/
def debounceTrace (st : BatteryState) : List (Nat × Nat) → List Decision
  | [] => []
  | (v, t) :: rest =>
      let r := processBattery st v t
      r.1 :: debounceTrace r.2 rest

/-- Type `BluetoothLEUpdate` from `ble.rs` (the raw-event channel payload of the
BLE watcher). -/
inductive BluetoothLEUpdate : Type
  | BatteryLevel (address : Nat) (value : Nat)
  | ConnectionStatus (address : Nat) (connected : Bool)
deriving DecidableEq, Repr

/-- Result of handling one `BluetoothLEUpdate::BatteryLevel` event
(`ble.rs` lines 287-363): the mutated registry and debounce-state map, the
value written to the registry (if any), and the tray-refresh flag. -/
structure BleBatteryResult : Type where
  registry : List (Nat × BluetoothInfo)
  states : List (Nat × BatteryState)
  committed : Option Nat
  need_update_tray : Bool
deriving DecidableEq, Repr

/-- The `BatteryLevel` arm of `watch_ble_devices_async` (`ble.rs` lines
287-363): skip addresses missing from the registry; on a vacant debounce
entry commit immediately and insert the initial state; on an occupied entry
run the debounce filter and commit only on a `Commit` decision, keeping the
mutated state either way. -/
def handleBatteryLevel (registry : List (Nat × BluetoothInfo))
    (states : List (Nat × BatteryState)) (address new_battery now : Nat) :
    BleBatteryResult :=
  match getEntry registry address with
  | none => ⟨registry, states, none, false⟩
  | some _ =>
    match getEntry states address with
    | none =>
        ⟨mapEntry registry address (fun i => { i with battery := new_battery }),
         (address, ⟨now, new_battery, none⟩) :: states,
         some new_battery, true⟩
    | some st =>
        match processBattery st new_battery now with
        | (Decision.Commit v, st2) =>
            ⟨mapEntry registry address (fun i => { i with battery := v }),
             mapEntry states address (fun _ => st2),
             some v, true⟩
        | (Decision.Hold, st2) =>
            ⟨registry, mapEntry states address (fun _ => st2), none, false⟩

/-- The `ConnectionStatus` arm of `watch_ble_devices_async` (`ble.rs` lines
365-378): update the `status` field in place when the entry exists and the
status changed; returns the registry and the tray-refresh flag. -/
def handleConnectionStatus (registry : List (Nat × BluetoothInfo))
    (address : Nat) (status : Bool) : List (Nat × BluetoothInfo) × Bool :=
  match getEntry registry address with
  | some info =>
      if info.status ≠ status then
        (mapEntry registry address (fun i => { i with status := status }), true)
      else (registry, false)
  | none => (registry, false)

/-- The receive arm of `watch_btc_devices_status_async` (`btc.rs` lines
425-441): same in-place `status` update for Classic devices. -/
def btcHandleStatus (registry : List (Nat × BluetoothInfo))
    (address : Nat) (status : Bool) : List (Nat × BluetoothInfo) × Bool :=
  match getEntry registry address with
  | some info =>
      if info.status ≠ status then
        (mapEntry registry address (fun i => { i with status := status }), true)
      else (registry, false)
  | none => (registry, false)

/-- One run of the BLE reconciliation loop over a trace of channel receive
results, each `some (update, now)` a delivered event and `none` a closed
channel (`ble.rs` lines 276-387): a closed channel returns the error of
line 280; otherwise the event is dispatched to the two arms. -/
def bleLoopRun (registry : List (Nat × BluetoothInfo))
    (states : List (Nat × BatteryState)) :
    List (Option (BluetoothLEUpdate × Nat)) →
      Except String (List (Nat × BluetoothInfo) × List (Nat × BatteryState))
  | [] => Except.ok (registry, states)
  | none :: _ => Except.error "Channel closed while watching BLE devices"
  | some (BluetoothLEUpdate.BatteryLevel a v, now) :: rest =>
      let r := handleBatteryLevel registry states a v now
      bleLoopRun r.registry r.states rest
  | some (BluetoothLEUpdate.ConnectionStatus a s, _) :: rest =>
      bleLoopRun (handleConnectionStatus registry a s).1 states rest

/-- One run of the Classic status loop over a trace of channel receive
results (`btc.rs` lines 423-442): a closed channel returns the error of
line 427. -/
def btcLoopRun (registry : List (Nat × BluetoothInfo)) :
    List (Option (Nat × Bool)) → Except String (List (Nat × BluetoothInfo))
  | [] => Except.ok registry
  | none :: _ => Except.error "Channel closed while watching BTC devices status"
  | some (a, s) :: rest => btcLoopRun (btcHandleStatus registry a s).1 rest

/-- Type `BluetoothPresence` from `src/src/bluetooth/watch.rs`. -/
inductive BluetoothPresence : Type
  | Added
  | Removed
deriving DecidableEq, Repr

/-- Notification raised by `update_event` in `watch_bt_presence_async`
(`watch.rs` lines 377-393). -/
inductive PresenceNotice : Type
  | addedNotice (name : String)
  | removedNotice (name : String)
deriving DecidableEq, Repr

/-- The notification `update_event` sends for a given presence direction. -/
def presenceNotice (presence : BluetoothPresence) (name : String) :
    PresenceNotice :=
  match presence with
  | BluetoothPresence.Added => PresenceNotice.addedNotice name
  | BluetoothPresence.Removed => PresenceNotice.removedNotice name

/-- Consumption of one presence event in `watch_bt_presence_async`
(`watch.rs` lines 395-408): on a vacant registry entry the carried info is
inserted, the generation bumped and `update_event` fired, irrespective of
the event direction; on an occupied entry an `Added` event is a no-op and a
`Removed` event removes the entry, bumps the generation and notifies with
the name of the removed entry. -/
def presenceStep (registry : List (Nat × BluetoothInfo)) (gen : Nat)
    (info : BluetoothInfo) (presence : BluetoothPresence) :
    List (Nat × BluetoothInfo) × Nat × Option PresenceNotice :=
  match getEntry registry info.address with
  | none =>
      ((info.address, info) :: registry, gen + 1,
        some (presenceNotice presence info.name))
  | some old =>
      match presence with
      | BluetoothPresence.Added => (registry, gen, none)
      | BluetoothPresence.Removed =>
          (removeEntry registry info.address, gen + 1,
            some (PresenceNotice.removedNotice old.name))

/-- The stub `BluetoothInfo` the `Removed` handler of `create_handler`
builds (`watch.rs` lines 296-299): only the address is filled in, the rest
is `Default::default()` (empty name, zero battery, disconnected, and the
default device kind). -/
def removedStub (address : Nat) : BluetoothInfo :=
  { name := ""
    battery := 0
    status := false
    address := address
    type := BluetoothType.Classic "" }

/-- The `Added` handler of `create_handler` (`watch.rs` lines 241-287):
when resolving the full info of the device succeeds the event is sent on the
channel; when it fails the handler only logs a warning and sends nothing. -/
def handlerAdded (resolved : Option BluetoothInfo) :
    List (BluetoothInfo × BluetoothPresence) :=
  match resolved with
  | some i => [(i, BluetoothPresence.Added)]
  | none => []

/-- One run of the presence loop over a trace of channel receive results
(`watch.rs` lines 373-419): a closed channel returns the error of line 410;
a delivered event goes through `presenceStep` (notices are consumed by the
UI layer and dropped here). -/
def presenceLoopRun (registry : List (Nat × BluetoothInfo)) (gen : Nat) :
    List (Option (BluetoothInfo × BluetoothPresence)) →
      Except String (List (Nat × BluetoothInfo) × Nat)
  | [] => Except.ok (registry, gen)
  | none :: _ => Except.error "Channel closed while watching Bluetooth presence"
  | some (info, presence) :: rest =>
      let r := presenceStep registry gen info presence
      presenceLoopRun r.1 r.2.1 rest

/-- The battery GATT characteristic, reduced to the one property
`watch_ble_device` inspects (`GattCharacteristicProperties::Notify`). -/
structure GattCharacteristic : Type where
  supports_notify : Bool
deriving DecidableEq, Repr

/-- An LE device as seen by `watch_ble_device`: the outcome of
`get_ble_battery_gatt_char` (locating the battery service/characteristic
can fail). -/
structure BleDeviceModel : Type where
  battery_gatt_char : Except String GattCharacteristic
deriving Repr

/-- Function `watch_ble_device` (`ble.rs` lines 168-219), up to the registration of
the two notification handlers: fails when the battery characteristic cannot
be located, or when it does not support change notifications (lines
177-179); otherwise yields the subscription guard. -/
def watchBleDevice (d : BleDeviceModel) : Except String GattCharacteristic :=
  match d.battery_gatt_char with
  | Except.error e => Except.error e
  | Except.ok c =>
      if c.supports_notify = false then
        Except.error "Battery level does not support notifications"
      else Except.ok c

/-- The initial subscription loop of `watch_ble_devices_async` (`ble.rs`
lines 270-274): each device is subscribed in turn and the first failure is
propagated with the question-mark operator, aborting the whole watcher. -/
def subscribeInitial : List (Nat × BleDeviceModel) →
    Except String (List (Nat × GattCharacteristic))
  | [] => Except.ok []
  | (a, d) :: rest =>
      match watchBleDevice d with
      | Except.error e => Except.error e
      | Except.ok sub =>
          match subscribeInitial rest with
          | Except.error e => Except.error e
          | Except.ok g => Except.ok ((a, sub) :: g)

/-- One added device of the BLE restart path (`ble.rs` lines 415-437):
`none` models a failed `get_ble_device_from_address`; a subscription
failure of `watch_ble_device` removes the device from the registry map and
continues; success registers the subscription guard. -/
def restartAddBle (deviceMap : List (Nat × BluetoothInfo))
    (guard : List (Nat × GattCharacteristic)) (address : Nat)
    (dev : Option BleDeviceModel) :
    List (Nat × BluetoothInfo) × List (Nat × GattCharacteristic) :=
  match dev with
  | none => (removeEntry deviceMap address, guard)
  | some d =>
    match watchBleDevice d with
    | Except.ok sub => (deviceMap, (address, sub) :: guard)
    | Except.error _ => (removeEntry deviceMap address, guard)

/-- The whole added-device loop of the BLE restart path, folded over the
device list. -/
def restartAddBleAll (deviceMap : List (Nat × BluetoothInfo))
    (guard : List (Nat × GattCharacteristic)) :
    List (Nat × Option BleDeviceModel) →
      List (Nat × BluetoothInfo) × List (Nat × GattCharacteristic)
  | [] => (deviceMap, guard)
  | (a, d) :: rest =>
      let r := restartAddBle deviceMap guard a d
      restartAddBleAll r.1 r.2 rest

/-- One added device of the Classic status restart path (`btc.rs` lines
474-496): `none` models a failed `get_btc_device_from_address`; a failing
`watch_btc_device_status` (payload `Except.error`) removes the device from
the registry map; success registers the subscription token. -/
def restartAddBtc (deviceMap : List (Nat × BluetoothInfo))
    (guard : List (Nat × Unit)) (address : Nat)
    (dev : Option (Except String Unit)) :
    List (Nat × BluetoothInfo) × List (Nat × Unit) :=
  match dev with
  | none => (removeEntry deviceMap address, guard)
  | some (Except.error _) => (removeEntry deviceMap address, guard)
  | some (Except.ok tok) => (deviceMap, (address, tok) :: guard)

/-- Membership test of `HashSet<u64>` (`notifyed_devices` in
`src/src/notify.rs`), modelled as a list of addresses. -/
def hsInsert (s : List Nat) (a : Nat) : List Nat × Bool :=
  if a ∈ s then (s, false) else (a :: s, true)

/-- Removal from the notified set (`HashSet::remove`), keeping every other address. -/
def hsRemove (s : List Nat) (a : Nat) : List Nat :=
  s.filter (fun x => x ≠ a)

/-- The `LowBattery` arm of `NotifyEvent::send` (`src/src/notify.rs` lines
41-59): with `diff = battery - threshold` (signed), a `diff ≤ 0` reading
notifies exactly when the address was not yet in the notified set and
inserts it; a `diff > 10` reading removes the address without notifying;
readings inside the band leave the set untouched.  Returns the new set and
whether a toast was raised. -/
def sendLowBattery (low_threshold battery address : Nat) (notifyed : List Nat) :
    List Nat × Bool :=
  let diff : Int := (battery : Int) - (low_threshold : Int)
  if diff ≤ 0 then
    hsInsert notifyed address
  else if diff > 10 then (hsRemove notifyed address, false)
  else (notifyed, false)

/-- A sequence of `LowBattery` events for one address, counting raised
notifications. -/
def sendLowBatteryRun (low_threshold address : Nat) (notifyed : List Nat) :
    List Nat → List Nat × Nat
  | [] => (notifyed, 0)
  | b :: rest =>
      let p := sendLowBattery low_threshold b address notifyed
      let q := sendLowBatteryRun low_threshold address p.1 rest
      (q.1, (if p.2 then 1 else 0) + q.2)

/-- Projection setting `battery := 0`, forgetting the one field the battery path may change;
used to state that a mutation touches nothing but `battery`. -/
def eraseBattery (i : BluetoothInfo) : BluetoothInfo := { i with battery := 0 }

/-- Projection setting `status := false`, forgetting the one field the status path may change. -/
def eraseStatus (i : BluetoothInfo) : BluetoothInfo := { i with status := false }

/-- A sample registry entry used by concrete evaluations. -/
def demoInfo : BluetoothInfo :=
  { name := "Headset"
    battery := 80
    status := true
    address := 2
    type := BluetoothType.LowEnergy }

/-- A sample LE device whose battery characteristic cannot be located. -/
def demoBadDevice : BleDeviceModel :=
  { battery_gatt_char := Except.error "Failed to get BLE Battery Gatt Service" }

/-- A sample LE device with a working, notifying battery characteristic. -/
def demoGoodDevice : BleDeviceModel :=
  { battery_gatt_char := Except.ok { supports_notify := true } }

/-- A reading equal to the last committed value clears any pending value
and holds (`ble.rs` lines 312-313, with the fallback disabled by
`state.last_value != new_battery`). -/
theorem processBattery_same (st : BatteryState) (now : Nat) :
    processBattery st st.last_value now =
      (Decision.Hold, { st with pending_state := none }) := by
  simp [processBattery, logicA]

/-- C10: for every address, the very first battery reading (no debounce
state yet — the `Vacant` arm of `ble.rs` lines 292-305) is committed to the
registry immediately, with no stability-window delay; the debounce state is
initialized with that value as last committed value and no pending value. -/
theorem C10_first_reading (registry : List (Nat × BluetoothInfo))
    (states : List (Nat × BatteryState)) (a nv now : Nat) (i : BluetoothInfo)
    (hreg : getEntry registry a = some i) (hst : getEntry states a = none) :
    handleBatteryLevel registry states a nv now =
      ⟨mapEntry registry a (fun j => { j with battery := nv }),
       (a, ⟨now, nv, none⟩) :: states, some nv, true⟩ ∧
    getEntry (handleBatteryLevel registry states a nv now).registry a
      = some { i with battery := nv } ∧
    getEntry (handleBatteryLevel registry states a nv now).states a
      = some ⟨now, nv, none⟩ := by
  have hmain : handleBatteryLevel registry states a nv now =
      ⟨mapEntry registry a (fun j => { j with battery := nv }),
       (a, ⟨now, nv, none⟩) :: states, some nv, true⟩ := by
    simp [handleBatteryLevel, hreg, hst]
  refine ⟨hmain, ?_, ?_⟩
  · rw [hmain]
    simp [getEntry_mapEntry, hreg]
  · rw [hmain]
    simp [getEntry]

/-- Witness for C10 at a concrete input. -/
theorem C10_witness :
    handleBatteryLevel [(2, demoInfo)] [] 2 77 3 =
      ⟨mapEntry [(2, demoInfo)] 2 (fun j => { j with battery := 77 }),
       [(2, ⟨3, 77, none⟩)], some 77, true⟩ ∧
    getEntry (handleBatteryLevel [(2, demoInfo)] [] 2 77 3).registry 2
      = some { demoInfo with battery := 77 } ∧
    getEntry (handleBatteryLevel [(2, demoInfo)] [] 2 77 3).states 2
      = some ⟨3, 77, none⟩ :=
  C10_first_reading [(2, demoInfo)] [] 2 77 3 demoInfo (by decide) rfl

/-- C2: whenever at least `MINIMUM_UPDATE_INTERVAL` (20 s) passed since the
last commit and the reading differs from the last committed value, the
debounce filter commits even if the stability window has not elapsed; the
committed value is the pending value after the stability check (the new
value when none is pending), and the state records the commit and clears
the pending value (`ble.rs` lines 336-350). -/
theorem C2_forced_update (st : BatteryState) (nv now : Nat)
    (h1 : MINIMUM_UPDATE_INTERVAL ≤ now - st.last_update)
    (h2 : st.last_value ≠ nv) :
    ∃ v, processBattery st nv now = (Decision.Commit v, ⟨now, v, none⟩) ∧
      v = (((logicA st nv now).1.pending_state).map Prod.fst).getD nv := by
  obtain ⟨lu, lv, ps⟩ := st
  rcases ps with _ | ⟨pv, t⟩
  · exact ⟨nv, by simp [processBattery, logicA, h1, h2], by simp [logicA, h2]⟩
  · by_cases hpv : pv = nv
    · subst hpv
      by_cases hst : BATTERY_STABILITY_DURATION ≤ now - t
      · exact ⟨pv, by simp [processBattery, logicA, h1, h2, hst],
          by simp [logicA, h2]⟩
      · exact ⟨pv, by simp [processBattery, logicA, h1, h2, hst],
          by simp [logicA, h2]⟩
    · exact ⟨nv, by simp [processBattery, logicA, h1, h2, hpv],
        by simp [logicA, h2, hpv]⟩

/-- Witness for C2 at a concrete input (no pending value, 20 s elapsed). -/
theorem C2_witness :
    ∃ v, processBattery ⟨0, 50, none⟩ 45 20 = (Decision.Commit v, ⟨20, v, none⟩) ∧
      v = (((logicA ⟨0, 50, none⟩ 45 20).1.pending_state).map Prod.fst).getD 45 :=
  C2_forced_update ⟨0, 50, none⟩ 45 20 (by decide) (by decide)

/-- C6: in each of the three channel-consuming loops (BLE watcher, Classic
status watcher, presence watcher), a closed channel (`recv` returning
`None`) makes the watcher return an error instead of continuing or
succeeding (`ble.rs` 278-281, `btc.rs` 425-428, `watch.rs` 409-411). -/
theorem C6_channel_closed_fatal :
    (∀ (registry : List (Nat × BluetoothInfo))
        (states : List (Nat × BatteryState))
        (rest : List (Option (BluetoothLEUpdate × Nat))),
       bleLoopRun registry states (none :: rest)
         = Except.error "Channel closed while watching BLE devices") ∧
    (∀ (registry : List (Nat × BluetoothInfo))
        (rest : List (Option (Nat × Bool))),
       btcLoopRun registry (none :: rest)
         = Except.error "Channel closed while watching BTC devices status") ∧
    (∀ (registry : List (Nat × BluetoothInfo)) (gen : Nat)
        (rest : List (Option (BluetoothInfo × BluetoothPresence))),
       presenceLoopRun registry gen (none :: rest)
         = Except.error "Channel closed while watching Bluetooth presence") :=
  ⟨fun _ _ _ => rfl, fun _ _ => rfl, fun _ _ _ => rfl⟩

/-- C1 counterexample: with last commit 20 s in the past, a pending value
equal to the reading whose age (10 s) is below the 15 s stability window is
nevertheless committed by the forced-update fallback — the clause
"otherwise no commit" of the claim fails on the code. -/
theorem C1_counterexample :
    (20 : Nat) - 10 < BATTERY_STABILITY_DURATION ∧
    processBattery ⟨0, 50, some (40, 10)⟩ 40 20
      = (Decision.Commit 40, ⟨20, 40, none⟩) := by decide

/-- C1 amended: the claimed case analysis of the debounce filter holds
provided the forced-update fallback does not apply, i.e. less than
`MINIMUM_UPDATE_INTERVAL` (20 s) passed since the last commit: an unchanged
reading clears pending and holds; a reading matching the pending value
commits exactly when the pending age reaches the 15 s stability window and
holds (keeping the pending value) otherwise; a reading differing from the
pending value restarts the pending pair; a reading with no pending value
creates the pending pair. -/
theorem C1_amended (st : BatteryState) (nv now : Nat)
    (hforce : now - st.last_update < MINIMUM_UPDATE_INTERVAL) :
    (st.last_value = nv →
       processBattery st nv now = (Decision.Hold, { st with pending_state := none })) ∧
    (∀ pv t0, st.last_value ≠ nv → st.pending_state = some (pv, t0) → pv = nv →
       (BATTERY_STABILITY_DURATION ≤ now - t0 →
          processBattery st nv now = (Decision.Commit nv, ⟨now, nv, none⟩)) ∧
       (now - t0 < BATTERY_STABILITY_DURATION →
          processBattery st nv now = (Decision.Hold, st))) ∧
    (∀ pv t0, st.last_value ≠ nv → st.pending_state = some (pv, t0) → pv ≠ nv →
       processBattery st nv now
         = (Decision.Hold, { st with pending_state := some (nv, now) })) ∧
    (st.last_value ≠ nv → st.pending_state = none →
       processBattery st nv now
         = (Decision.Hold, { st with pending_state := some (nv, now) })) := by
  obtain ⟨lu, lv, ps⟩ := st
  simp only at hforce
  have hnof : ¬ (MINIMUM_UPDATE_INTERVAL ≤ now - lu) := not_le.mpr hforce
  refine ⟨?_, ?_, ?_, ?_⟩
  · intro hsame
    subst hsame
    exact processBattery_same ⟨lu, lv, ps⟩ now
  · intro pv t0 hne hps hpv
    subst hpv
    simp only at hps
    subst hps
    constructor
    · intro hstab
      simp [processBattery, logicA, hne, hstab]
    · intro hstab
      have hnostab : ¬ (BATTERY_STABILITY_DURATION ≤ now - t0) := not_le.mpr hstab
      simp [processBattery, logicA, hne, hnostab, hnof]
  · intro pv t0 hne hps hpv
    simp only at hps
    subst hps
    simp [processBattery, logicA, hne, hpv, hnof]
  · intro hne hps
    simp only at hps
    subst hps
    simp [processBattery, logicA, hne, hnof]

/-- Witness for C1 (amended) at a concrete input: a fresh differing reading
with no pending value is held and becomes pending. -/
theorem C1_witness :
    processBattery ⟨0, 50, none⟩ 51 5
      = (Decision.Hold, ⟨0, 50, some (51, 5)⟩) :=
  (C1_amended ⟨0, 50, none⟩ 51 5 (by decide)).2.2.2 (by decide) rfl

/-- C9 counterexample: with last committed value 42, the reading sequence
42, 41, 42, 42, 42 at 5-second intervals produces no commit at all — in
particular no commit at the third consecutive 42 — because every 42 equals
the last committed value and merely clears the pending state
(`ble.rs` lines 312-313). -/
theorem C9_counterexample :
    debounceTrace ⟨0, 42, none⟩ [(42, 0), (41, 5), (42, 10), (42, 15), (42, 20)]
      = [Decision.Hold, Decision.Hold, Decision.Hold, Decision.Hold,
         Decision.Hold] := by decide

/-- C9 amended: with last committed value 42 (committed at any earlier
time), the sequence 42, 41, 42, 42, 42 at 5-second intervals produces no
commit: each 42 reading equals the last committed value and clears the
pending state, and the 41 at t=5 only creates a pending pair that the 42 at
t=10 clears; the registry stays at 42 throughout. -/
theorem C9_amended (lu : Nat) :
    debounceTrace ⟨lu, 42, none⟩ [(42, 0), (41, 5), (42, 10), (42, 15), (42, 20)]
      = [Decision.Hold, Decision.Hold, Decision.Hold, Decision.Hold,
         Decision.Hold] := by
  have h1 : processBattery ⟨lu, 42, none⟩ 42 0 = (Decision.Hold, ⟨lu, 42, none⟩) :=
    processBattery_same ⟨lu, 42, none⟩ 0
  have hb : ¬ (MINIMUM_UPDATE_INTERVAL ≤ 5 - lu) := by
    simp only [MINIMUM_UPDATE_INTERVAL]
    omega
  have h2 : processBattery ⟨lu, 42, none⟩ 41 5
      = (Decision.Hold, ⟨lu, 42, some (41, 5)⟩) := by
    simp [processBattery, logicA, hb]
  have h3 : processBattery ⟨lu, 42, some (41, 5)⟩ 42 10
      = (Decision.Hold, ⟨lu, 42, none⟩) :=
    processBattery_same ⟨lu, 42, some (41, 5)⟩ 10
  have h4 : processBattery ⟨lu, 42, none⟩ 42 15 = (Decision.Hold, ⟨lu, 42, none⟩) :=
    processBattery_same ⟨lu, 42, none⟩ 15
  have h5 : processBattery ⟨lu, 42, none⟩ 42 20 = (Decision.Hold, ⟨lu, 42, none⟩) :=
    processBattery_same ⟨lu, 42, none⟩ 20
  simp [debounceTrace, h1, h2, h3, h4, h5]

/-- The signed comparison in `NotifyEvent::send` (`diff = battery as i32 -
threshold as i32`) restated over naturals. -/
theorem sendLowBattery_eq (threshold battery address : Nat) (s : List Nat) :
    sendLowBattery threshold battery address s =
      if battery ≤ threshold then hsInsert s address
      else if threshold + 10 < battery then (hsRemove s address, false)
      else (s, false) := by
  simp only [sendLowBattery]
  split_ifs <;> first | rfl | omega

theorem lowBattery_notify_sets (threshold battery address : Nat) (s : List Nat)
    (h1 : address ∉ s) (h2 : battery ≤ threshold) :
    sendLowBattery threshold battery address s = (address :: s, true) := by
  rw [sendLowBattery_eq]
  simp [h2, hsInsert, h1]

theorem lowBattery_no_renotify (threshold battery address : Nat) (s : List Nat)
    (h : address ∈ s) :
    (sendLowBattery threshold battery address s).2 = false := by
  rw [sendLowBattery_eq]
  split_ifs with h1 h2
  · simp [hsInsert, h]
  · rfl
  · rfl

theorem lowBattery_clears (threshold battery address : Nat) (s : List Nat)
    (h : threshold + 10 < battery) :
    address ∉ (sendLowBattery threshold battery address s).1 ∧
    (sendLowBattery threshold battery address s).2 = false := by
  rw [sendLowBattery_eq]
  have h1 : ¬ battery ≤ threshold := by omega
  simp [h1, h, hsRemove]

theorem lowBattery_keeps (threshold battery address : Nat) (s : List Nat)
    (hmem : address ∈ s) (hb : battery ≤ threshold + 10) :
    address ∈ (sendLowBattery threshold battery address s).1 := by
  rw [sendLowBattery_eq]
  split_ifs with h1 h2
  · simp [hsInsert, hmem]
  · omega
  · exact hmem

theorem lowBattery_band (threshold battery address : Nat) (s : List Nat)
    (h1 : threshold < battery) (h2 : battery ≤ threshold + 10) :
    sendLowBattery threshold battery address s = (s, false) := by
  rw [sendLowBattery_eq]
  have h3 : ¬ battery ≤ threshold := by omega
  have h4 : ¬ threshold + 10 < battery := by omega
  simp [h3, h4]

theorem lowBatteryRun_quiet (threshold address : Nat) :
    ∀ (readings : List Nat) (s : List Nat), address ∈ s →
      (∀ b ∈ readings, b ≤ threshold + 10) →
      (sendLowBatteryRun threshold address s readings).2 = 0 ∧
      address ∈ (sendLowBatteryRun threshold address s readings).1 := by
  intro readings
  induction readings with
  | nil => intro s hmem _; exact ⟨rfl, hmem⟩
  | cons b rest ih =>
    intro s hmem hall
    have hb : b ≤ threshold + 10 := hall b (List.mem_cons_self b rest)
    have hfired : (sendLowBattery threshold b address s).2 = false :=
      lowBattery_no_renotify threshold b address s hmem
    have hkeep : address ∈ (sendLowBattery threshold b address s).1 :=
      lowBattery_keeps threshold b address s hmem hb
    have hrest := ih (sendLowBattery threshold b address s).1 hkeep
      (fun x hx => hall x (List.mem_cons_of_mem b hx))
    constructor
    · simp [sendLowBatteryRun, hfired, hrest.1]
    · simpa [sendLowBatteryRun, hfired] using hrest.2

/-- C3: the per-address low-battery flag of `NotifyEvent::send`
(`notify.rs` lines 41-59) is a two-state machine with hysteresis: a reading
at or below the threshold with the flag clear raises one notification and
sets the flag; with the flag set no notification is raised; a reading more
than 10 points above the threshold clears the flag without notifying;
readings inside the band (threshold, threshold+10] change nothing; and any
run of readings at or below threshold+10 starting with the flag set raises
zero further notifications and leaves the flag set. -/
theorem C3_low_battery_hysteresis (threshold address battery : Nat)
    (s : List Nat) :
    (address ∉ s → battery ≤ threshold →
       sendLowBattery threshold battery address s = (address :: s, true)) ∧
    (address ∈ s → (sendLowBattery threshold battery address s).2 = false) ∧
    (threshold + 10 < battery →
       address ∉ (sendLowBattery threshold battery address s).1 ∧
       (sendLowBattery threshold battery address s).2 = false) ∧
    (threshold < battery → battery ≤ threshold + 10 →
       sendLowBattery threshold battery address s = (s, false)) ∧
    (∀ readings : List Nat, address ∈ s →
       (∀ b ∈ readings, b ≤ threshold + 10) →
       (sendLowBatteryRun threshold address s readings).2 = 0 ∧
       address ∈ (sendLowBatteryRun threshold address s readings).1) :=
  ⟨fun h1 h2 => lowBattery_notify_sets threshold battery address s h1 h2,
   fun h => lowBattery_no_renotify threshold battery address s h,
   fun h => lowBattery_clears threshold battery address s h,
   fun h1 h2 => lowBattery_band threshold battery address s h1 h2,
   fun readings hmem hall => lowBatteryRun_quiet threshold address readings s hmem hall⟩

/-- Witness for C3 at a concrete input: battery 15 at threshold 20 with a
clear flag notifies once and sets the flag. -/
theorem C3_witness :
    sendLowBattery 20 15 5 [] = ([5], true) :=
  (C3_low_battery_hysteresis 20 5 15 []).1 (by decide) (by decide)

/-- C4: evaluation of the presence consumer (`watch.rs` lines 395-408) at
the failing input — a `Removed` event for an address absent from the
registry.  The code takes the `Vacant` branch regardless of the event
direction: it inserts the default-initialized stub carried by the event,
bumps the generation, and emits a `Removed` notification — instead of the
no-op the claim (and the spec) require. -/
theorem C4_removed_vacant_inserts :
    presenceStep [] 0 (removedStub 99) BluetoothPresence.Removed
      = ([(99, removedStub 99)], 1,
         some (PresenceNotice.removedNotice "")) := rfl

/-- C5: a presence-added event whose resolution fails sends nothing on the
channel (`create_handler`, `watch.rs` lines 241-287), so the registry gains
no entry for that address and the generation is not bumped; a concurrently
added device whose resolution succeeds is still inserted and bumps the
generation by exactly 1. -/
theorem C5_resolution_failure (registry : List (Nat × BluetoothInfo))
    (gen a : Nat) (infoB : BluetoothInfo)
    (ha : getEntry registry a = none) (hne : a ≠ infoB.address)
    (hb : getEntry registry infoB.address = none) :
    presenceLoopRun registry gen
        ((handlerAdded none ++ handlerAdded (some infoB)).map some)
      = Except.ok ((infoB.address, infoB) :: registry, gen + 1) ∧
    getEntry ((infoB.address, infoB) :: registry) a = none := by
  constructor
  · simp [handlerAdded, presenceLoopRun, presenceStep, hb]
  · have hne2 : ¬ infoB.address = a := fun h => hne h.symm
    simp [getEntry, hne2, ha]

/-- Witness for C5 at a concrete input: one failed and one successful add
on an empty registry. -/
theorem C5_witness :
    presenceLoopRun [] 0
        ((handlerAdded none ++ handlerAdded (some demoInfo)).map some)
      = Except.ok ([(2, demoInfo)], 1) ∧
    getEntry [(2, demoInfo)] 1 = none :=
  C5_resolution_failure [] 0 1 demoInfo rfl (by decide) rfl

/-- Guard entries of addresses never processed by the restart loop are
untouched. -/
theorem restartAddBleAll_guard_of_notmem (a : Nat) :
    ∀ (added : List (Nat × Option BleDeviceModel))
      (deviceMap : List (Nat × BluetoothInfo))
      (guard : List (Nat × GattCharacteristic)),
      a ∉ added.map Prod.fst →
      getEntry (restartAddBleAll deviceMap guard added).2 a = getEntry guard a := by
  intro added
  induction added with
  | nil => intro _ _ _; rfl
  | cons kd rest ih =>
    obtain ⟨k, od⟩ := kd
    intro deviceMap guard hnm
    have hk : ¬ k = a := by
      intro h
      exact hnm (by simp [h])
    have hrest : a ∉ rest.map Prod.fst := fun h => hnm (by simp [h])
    rcases od with _ | d
    · simpa [restartAddBleAll, restartAddBle] using
        ih (removeEntry deviceMap k) guard hrest
    · rcases hw : watchBleDevice d with e | sub
      · simpa [restartAddBleAll, restartAddBle, hw] using
          ih (removeEntry deviceMap k) guard hrest
      · have := ih deviceMap ((k, sub) :: guard) hrest
        simpa [restartAddBleAll, restartAddBle, hw, getEntry, hk] using this

/-- A successfully subscribing added device ends up in the guard map of the
restart loop, regardless of other devices failing. -/
theorem restartAddBleAll_subscribes (a : Nat) (d : BleDeviceModel)
    (sub : GattCharacteristic) :
    ∀ (added : List (Nat × Option BleDeviceModel))
      (deviceMap : List (Nat × BluetoothInfo))
      (guard : List (Nat × GattCharacteristic)),
      (a, some d) ∈ added → watchBleDevice d = Except.ok sub →
      (added.map Prod.fst).Nodup →
      getEntry (restartAddBleAll deviceMap guard added).2 a = some sub := by
  intro added
  induction added with
  | nil => intro _ _ hmem _ _; cases hmem
  | cons kd rest ih =>
    obtain ⟨k, od⟩ := kd
    intro deviceMap guard hmem hok hnd
    have hnd2 : (rest.map Prod.fst).Nodup := (List.nodup_cons.mp hnd).2
    have hknm : k ∉ rest.map Prod.fst := (List.nodup_cons.mp hnd).1
    rcases List.mem_cons.mp hmem with heq | hmem2
    · have hka : k = a := congrArg Prod.fst heq.symm
      have hod : od = some d := congrArg Prod.snd heq.symm
      subst hka
      subst hod
      have hnm : k ∉ rest.map Prod.fst := hknm
      have := restartAddBleAll_guard_of_notmem k rest deviceMap
          ((k, sub) :: guard) hnm
      simpa [restartAddBleAll, restartAddBle, hok, getEntry] using this
    · have hka : ¬ k = a := by
        intro h
        subst h
        exact hknm (by simpa using List.mem_map_of_mem Prod.fst hmem2)
      rcases od with _ | d2
      · simpa [restartAddBleAll, restartAddBle] using
          ih (removeEntry deviceMap k) guard hmem2 hok hnd2
      · rcases hw : watchBleDevice d2 with e | sub2
        · simpa [restartAddBleAll, restartAddBle, hw] using
            ih (removeEntry deviceMap k) guard hmem2 hok hnd2
        · simpa [restartAddBleAll, restartAddBle, hw] using
            ih deviceMap ((k, sub2) :: guard) hmem2 hok hnd2

/-- C7 counterexample: in the initial subscription loop of
`watch_ble_devices_async` (`ble.rs` lines 270-274) the subscription failure of the first device is propagated with the question-mark operator, so the
second (healthy) device is never subscribed and the whole watcher errors —
contradicting "establishing and running subscriptions for all other devices
is unaffected by the failure of that one device". -/
theorem C7_counterexample :
    subscribeInitial [(1, demoBadDevice), (2, demoGoodDevice)]
      = Except.error "Failed to get BLE Battery Gatt Service" := rfl

/-- C7 amended: the subscription attempt fails with an error when the
battery characteristic cannot be located or does not support change
notifications, and in the generation-restart path (`ble.rs` lines 415-437)
such a failure excludes only that device — it is dropped from the device
map, the guard map is untouched, and every other added device with a
working characteristic is still subscribed; in the initial setup loop,
however, a single failure aborts the whole BLE watcher. -/
theorem C7_amended (d : BleDeviceModel) (c : GattCharacteristic) (e : String)
    (deviceMap : List (Nat × BluetoothInfo))
    (guard : List (Nat × GattCharacteristic)) (a : Nat)
    (sub : GattCharacteristic) (added : List (Nat × Option BleDeviceModel)) :
    (d.battery_gatt_char = Except.error e → watchBleDevice d = Except.error e) ∧
    (d.battery_gatt_char = Except.ok c → c.supports_notify = false →
       watchBleDevice d
         = Except.error "Battery level does not support notifications") ∧
    (d.battery_gatt_char = Except.ok c → c.supports_notify = true →
       watchBleDevice d = Except.ok c) ∧
    (restartAddBle deviceMap guard a none = (removeEntry deviceMap a, guard)) ∧
    (watchBleDevice d = Except.error e →
       restartAddBle deviceMap guard a (some d)
         = (removeEntry deviceMap a, guard)) ∧
    (watchBleDevice d = Except.ok sub →
       restartAddBle deviceMap guard a (some d)
         = (deviceMap, (a, sub) :: guard)) ∧
    ((a, some d) ∈ added → watchBleDevice d = Except.ok sub →
       (added.map Prod.fst).Nodup →
       getEntry (restartAddBleAll deviceMap guard added).2 a = some sub) := by
  refine ⟨?_, ?_, ?_, rfl, ?_, ?_, ?_⟩
  · intro h
    simp [watchBleDevice, h]
  · intro h hn
    simp [watchBleDevice, h, hn]
  · intro h hn
    simp [watchBleDevice, h, hn]
  · intro h
    simp [restartAddBle, h]
  · intro h
    simp [restartAddBle, h]
  · intro hmem hok hnd
    exact restartAddBleAll_subscribes a d sub added deviceMap guard hmem hok hnd

/-- Witness for C7 (amended): the healthy device 2 is subscribed even
though device 1 fails in the same restart batch. -/
theorem C7_witness :
    getEntry (restartAddBleAll [] []
        [(1, some demoBadDevice), (2, some demoGoodDevice)]).2 2
      = some { supports_notify := true } :=
  (C7_amended demoGoodDevice { supports_notify := true } "e" [] [] 2
      { supports_notify := true }
      [(1, some demoBadDevice), (2, some demoGoodDevice)]).2.2.2.2.2.2
    (List.mem_cons_of_mem _ (List.mem_cons_self _ _)) rfl (by decide)

/-- C8 counterexample: the Classic status watcher (`btc.rs` lines 474-481)
and the BLE watcher (`ble.rs` lines 415-437) remove a registry entry when
an added device fails to resolve or subscribe during a generation restart —
contradicting "never inserting or removing registry entries". -/
theorem C8_counterexample :
    (restartAddBtc [(2, demoInfo)] [] 2 none).1 = [] ∧
    (restartAddBle [(2, demoInfo)] [] 2 (some demoBadDevice)).1 = [] :=
  ⟨rfl, rfl⟩

/-- C8 amended: the event paths of the per-device watchers mutate only the
designated fields of existing entries — the battery path changes nothing
but `battery` (registry keys and all other fields preserved), and the two
status paths change nothing but `status` — and they never insert entries;
but during a generation restart both watchers additionally remove the
registry entry of an added device whose resolution or subscription fails
(success leaves the registry untouched and only extends the guard map). -/
theorem C8_amended (registry : List (Nat × BluetoothInfo))
    (states : List (Nat × BatteryState)) (a v t a2 : Nat) (s : Bool)
    (dm : List (Nat × BluetoothInfo)) (g : List (Nat × GattCharacteristic))
    (g2 : List (Nat × Unit)) (a3 : Nat) (e : String) (tok : Unit) :
    ((getEntry (handleBatteryLevel registry states a v t).registry a2).map
        eraseBattery
      = (getEntry registry a2).map eraseBattery) ∧
    ((getEntry (handleConnectionStatus registry a s).1 a2).map eraseStatus
      = (getEntry registry a2).map eraseStatus) ∧
    ((getEntry (btcHandleStatus registry a s).1 a2).map eraseStatus
      = (getEntry registry a2).map eraseStatus) ∧
    (restartAddBle dm g a3 none = (removeEntry dm a3, g)) ∧
    (restartAddBle dm g a3 (some { battery_gatt_char := Except.error e })
      = (removeEntry dm a3, g)) ∧
    (restartAddBle dm g a3
        (some { battery_gatt_char := Except.ok { supports_notify := false } })
      = (removeEntry dm a3, g)) ∧
    (restartAddBle dm g a3
        (some { battery_gatt_char := Except.ok { supports_notify := true } })
      = (dm, (a3, { supports_notify := true }) :: g)) ∧
    (restartAddBtc dm g2 a3 none = (removeEntry dm a3, g2)) ∧
    (restartAddBtc dm g2 a3 (some (Except.error e)) = (removeEntry dm a3, g2)) ∧
    (restartAddBtc dm g2 a3 (some (Except.ok tok)) = (dm, (a3, tok) :: g2)) := by
  refine ⟨?_, ?_, ?_, rfl, rfl, rfl, rfl, rfl, rfl, rfl⟩
  · rcases hr : getEntry registry a with _ | i
    · simp [handleBatteryLevel, hr]
    · rcases hs : getEntry states a with _ | st
      · simp only [handleBatteryLevel, hr, hs]
        rw [getEntry_mapEntry]
        by_cases h : a2 = a
        · rw [if_pos h]
          cases getEntry registry a2 <;> rfl
        · rw [if_neg h]
      · rcases hp : processBattery st v t with ⟨dec, st2⟩
        rcases dec with w | _
        · simp only [handleBatteryLevel, hr, hs, hp]
          rw [getEntry_mapEntry]
          by_cases h : a2 = a
          · rw [if_pos h]
            cases getEntry registry a2 <;> rfl
          · rw [if_neg h]
        · simp [handleBatteryLevel, hr, hs, hp]
  · rcases hr : getEntry registry a with _ | i
    · simp [handleConnectionStatus, hr]
    · by_cases h : i.status ≠ s
      · simp only [handleConnectionStatus, hr, if_pos h]
        rw [getEntry_mapEntry]
        by_cases h2 : a2 = a
        · rw [if_pos h2]
          cases getEntry registry a2 <;> rfl
        · rw [if_neg h2]
      · simp [handleConnectionStatus, hr, h]
  · rcases hr : getEntry registry a with _ | i
    · simp [btcHandleStatus, hr]
    · by_cases h : i.status ≠ s
      · simp only [btcHandleStatus, hr, if_pos h]
        rw [getEntry_mapEntry]
        by_cases h2 : a2 = a
        · rw [if_pos h2]
          cases getEntry registry a2 <;> rfl
        · rw [if_neg h2]
      · simp [btcHandleStatus, hr, h]

end BlueGauge
